import Mathlib

/-!
Verification of the open-observe tracing library (Go) against its
natural-language specification.

The Go source is shallowly embedded:
* `error` values are modelled as `Option GoError` where `GoError` is the
  error's message string (`err.Error()`).
* `time.Time` is modelled as `GoTime := Nat` (nanoseconds since epoch);
  `t.IsZero()` becomes `t = 0`.  The RFC3339 textual rendering is modelled by
  an injective function `formatRFC3339`; no claim inspects the format itself.
* `float64` fields (only `Duration`, which is passed through verbatim and
  never computed with) are modelled as `Int`.
* An OpenTelemetry span is modelled as an explicit state `SpanState`:
  an attribute map (association list where a later `SetAttributes` overrides
  by key), an optional status, the list of recorded errors, and an
  ended flag.
-/

/-- Go `error` modelled by its message string (the value of `err.Error()`). -/
abbrev GoError := String

/-- Go `time.Time`, modelled as nanoseconds; `IsZero` is `t = 0`. -/
abbrev GoTime := Nat

/-- `t.IsZero()` of Go `time.Time`. -/
def GoTime.isZero (t : GoTime) : Prop := t = 0

instance (t : GoTime) : Decidable t.isZero := by
  unfold GoTime.isZero; infer_instance

/-- `t.Format(time.RFC3339)`: modelled as an injective rendering; the actual
text of the format is irrelevant to every claim. -/
def formatRFC3339 (t : GoTime) : String := "rfc3339:" ++ toString t

/-- OpenTelemetry attribute values used by this repository. -/
inductive AttrValue where
  | str (s : String)
  | int (n : Int)
  deriving DecidableEq, Repr

/-- OpenTelemetry status codes (`go.opentelemetry.io/otel/codes`). -/
inductive OtelCode where
  | unset
  | ok
  | error
  deriving DecidableEq, Repr

/-! ### Association-list operations (string-keyed maps)

Used for span attribute sets and HTTP header maps.  `insertA` overrides the
first binding of the key in place, or appends a new binding; `lookupA` finds
the first binding.  `setAll` is the semantics of a `SetAttributes` /
sequence of header writes: left fold of `insertA`. -/

/-- First binding of key `k`, if any. -/
def lookupA {α : Type} : List (String × α) → String → Option α
  | [], _ => none
  | (k, v) :: rest, k0 => if k = k0 then some v else lookupA rest k0

/-- Replace the binding of key `k` in place, or append it. -/
def insertA {α : Type} : List (String × α) → String → α → List (String × α)
  | [], k, v => [(k, v)]
  | (k0, v0) :: rest, k, v =>
      if k0 = k then (k, v) :: rest else (k0, v0) :: insertA rest k v

/-- Apply a list of key/value writes, in order, each overriding by key. -/
def setAll {α : Type} (l : List (String × α)) (kvs : List (String × α)) :
    List (String × α) :=
  kvs.foldl (fun acc kv => insertA acc kv.1 kv.2) l

/-- Observable state of one OpenTelemetry span. -/
structure SpanState where
  name : String
  attrs : List (String × AttrValue)
  status : Option (OtelCode × String)
  recordedErrors : List String
  ended : Bool
  deriving DecidableEq, Repr

/-- `span.SetStatus(code, msg)`. -/
def SpanState.setStatus (s : SpanState) (c : OtelCode) (msg : String) : SpanState :=
  { s with status := some (c, msg) }

/-- `span.SetAttributes(kvs...)`: each attribute overrides the previous
binding of its key, never deletes. -/
def SpanState.setAttributes (s : SpanState) (kvs : List (String × AttrValue)) : SpanState :=
  { s with attrs := setAll s.attrs kvs }

/-- `span.RecordError(err)`. -/
def SpanState.recordError (s : SpanState) (e : GoError) : SpanState :=
  { s with recordedErrors := s.recordedErrors ++ [e] }

/-- `span.End()`. -/
def SpanState.endSpan (s : SpanState) : SpanState :=
  { s with ended := true }

/-! ### `src/otel/trace_data.go` -/

/-- `TraceData` (src/otel/trace_data.go lines 14-32). -/
structure TraceData where
  UserID : String := ""
  RequestID : String := ""
  ServiceName : String := ""
  Environment : String := ""
  Version : String := ""
  Region : String := ""
  Action : String := ""
  Resource : String := ""
  StatusCode : Int := 0
  Error : Option GoError := none
  ClientIP : String := ""
  UserAgent : String := ""
  RequestSize : Int := 0
  ResponseSize : Int := 0
  Duration : Int := 0
  StartTime : GoTime := 0
  EndTime : GoTime := 0
  deriving DecidableEq, Repr

/-- The `attributes` slice built by `AddTraceAttributes`
(src/otel/trace_data.go lines 37-64): fourteen unconditional entries, then
`start_time` / `end_time` when the timestamps are non-zero, then
`error.message` when an error is attached. -/
def buildAttributes (data : TraceData) : List (String × AttrValue) :=
  let attributes : List (String × AttrValue) := [
    ("user.id", .str data.UserID),
    ("request.id", .str data.RequestID),
    ("service.name", .str data.ServiceName),
    ("environment", .str data.Environment),
    ("version", .str data.Version),
    ("region", .str data.Region),
    ("action", .str data.Action),
    ("resource", .str data.Resource),
    ("status.code", .int data.StatusCode),
    ("client.ip", .str data.ClientIP),
    ("user.agent", .str data.UserAgent),
    ("request.size", .int data.RequestSize),
    ("response.size", .int data.ResponseSize),
    ("duration.ms", .int data.Duration)]
  let attributes :=
    if ¬ data.StartTime.isZero then
      attributes ++ [("start_time", .str (formatRFC3339 data.StartTime))]
    else attributes
  let attributes :=
    if ¬ data.EndTime.isZero then
      attributes ++ [("end_time", .str (formatRFC3339 data.EndTime))]
    else attributes
  match data.Error with
  | some e => attributes ++ [("error.message", .str e)]
  | none => attributes

/-- `AddTraceAttributes` (src/otel/trace_data.go lines 35-79): builds the
attribute slice, classifies the status when `StatusCode ≠ 0`
(`200 → Ok "Success"`, otherwise `Error` with the error's message or
`"Unknown error"`), then commits the attributes with `SetAttributes`. -/
def AddTraceAttributes (span : SpanState) (data : TraceData) : SpanState :=
  let attributes := buildAttributes data
  let span :=
    if data.StatusCode ≠ 0 then
      if data.StatusCode = 200 then
        span.setStatus .ok "Success"
      else
        match data.Error with
        | some e => span.setStatus .error e
        | none => span.setStatus .error "Unknown error"
    else span
  span.setAttributes attributes

/-- `NewTraceData` (src/otel/trace_data.go lines 82-90); `now` stands for the
value of `time.Now()`. -/
def NewTraceData (now : GoTime) : TraceData :=
  { Environment := "development"
    Version := "1.0.0"
    ServiceName := "echo-server"
    Region := "local"
    StartTime := now }

/-! ### `Config` and `TraceContext` (src/unnamed/part_001 lines 14-26) -/

/-- Library configuration. -/
structure Config where
  ServiceName : String := ""
  Endpoint : String := ""
  IsSecure : Bool := false
  BasicAuth : String := ""
  Environment : String := ""
  StreamName : String := ""
  deriving DecidableEq, Repr

/-- The trace-context carrier: a tracer handle (modelled by its name) plus a
request-scoped context (opaque here; nothing in the claims inspects it). -/
structure TraceContext where
  tracerName : String
  deriving DecidableEq, Repr

/-! ### `StartSpan` (src/unnamed/part_000 lines 75-82)

The helper's effects are recorded in an append-only ledger `SpanLog`:
`started` lists the names of spans started so far (a span's id is its index),
`ended` the ids each `span.End()` was called on, `statusSet` the status
writes.  The unit of work is a state transformer on the ledger that finishes
either normally — with Go's `error` result — or by panicking; Go's `defer
span.End()` runs in both cases, which the model reflects by appending the
`End` after the work unconditionally. -/

/-- Ledger of span lifecycle events. -/
structure SpanLog where
  started : List String
  ended : List Nat
  statusSet : List (Nat × OtelCode × String)
  deriving DecidableEq, Repr

/-- How a unit of work finishes: a normal return carrying Go's `error`
result, or a panic. -/
inductive Outcome where
  | normal (err : Option GoError)
  | panicked (msg : String)
  deriving DecidableEq, Repr

/-- `StartSpan(tracerCtx, operation, fn)`: starts one span named
`operation`, defers its `End`, runs `fn`, and returns `fn`'s outcome
unchanged.  `fn` receives the id of the new span. -/
def StartSpan (tracerCtx : TraceContext) (operation : String)
    (fn : Nat → SpanLog → SpanLog × Outcome) (log : SpanLog) :
    SpanLog × Outcome :=
  let _ := tracerCtx
  let sid := log.started.length
  let log1 : SpanLog := { log with started := log.started ++ [operation] }
  let r := fn sid log1
  ({ r.1 with ended := r.1.ended ++ [sid] }, r.2)

/-! ### Provider initializers (src/unnamed/part_000 lines 17-72 and
src/unnamed/part_001 lines 149-194)

Only the exporter options they compute are observable to the claims; the
construction of the OTLP client itself is external. -/

/-- The exporter options passed to `otlptracehttp.New` / `otlptracegrpc.New`. -/
structure ExporterOpts where
  endpoint : String
  urlPath : Option String
  authorization : String
  streamName : String
  insecure : Bool
  deriving DecidableEq, Repr

/-- `InitTracerHTTP` (src/unnamed/part_000 lines 17-72), restricted to the
exporter options it assembles. -/
def InitTracerHTTP (config : Config) : ExporterOpts :=
  let httpEndpoint := "127.0.0.1:5081"
  let httpEndpoint := if config.Endpoint ≠ "" then config.Endpoint else httpEndpoint
  let path := "/api/default/v1/traces"
  let streamName := "default"
  let streamName := if config.StreamName ≠ "" then config.StreamName else streamName
  { endpoint := httpEndpoint
    urlPath := some path
    authorization := "Basic " ++ config.BasicAuth
    streamName := streamName
    insecure := ¬ config.IsSecure }

/-- `InitTracerGRPC` (src/unnamed/part_001 lines 149-194), restricted to the
exporter options it assembles. -/
def InitTracerGRPC (config : Config) : ExporterOpts :=
  let gprcEndpoint := "127.0.0.1:5081"
  let gprcEndpoint := if config.Endpoint ≠ "" then config.Endpoint else gprcEndpoint
  let streamName := "default"
  let streamName := if config.StreamName ≠ "" then config.StreamName else streamName
  { endpoint := gprcEndpoint
    urlPath := none
    authorization := "Basic " ++ config.BasicAuth
    streamName := streamName
    insecure := ¬ config.IsSecure }

/-! ### `OtelMiddleware` (src/unnamed/part_001 lines 42-134)

The echo request/response pair is modelled by the fields the middleware
reads and writes.  `http.Header.Get` returns `""` when the header is absent.
The downstream handler `next` is an arbitrary function from the response
state it receives to the response state it leaves plus its `error` result. -/

/-- The inbound request fields read by the middleware. -/
structure Request where
  method : String
  path : String
  urlPath : String
  host : String
  scheme : String
  proto : String
  headers : List (String × String)
  contentLength : Int
  clientIP : String
  userAgent : String
  deriving DecidableEq, Repr

/-- The response state the middleware and handler touch. -/
structure Response where
  status : Int
  size : Int
  headers : List (String × String)
  deriving DecidableEq, Repr

/-- Go `http.Header.Get`: first binding, or `""` when absent. -/
def headerGet (headers : List (String × String)) (k : String) : String :=
  (lookupA headers k).getD ""

/-- What one run of the middleware produces: the request span's final state,
the final response, and the error returned to the framework. -/
structure MwResult where
  span : SpanState
  response : Response
  result : Option GoError
  deriving DecidableEq, Repr

/-- The route computed at lines 57-61: `c.Path()`, or the fallback
`"HTTP <method> route not found"` when the router matched nothing. -/
def mwRoute (req : Request) : String :=
  let route := req.path
  if route = "" then "HTTP " ++ req.method ++ " route not found" else route

/-- The request id (lines 63-68): the inbound `X-Request-ID` header, or the
freshly generated uuid when that header is empty/absent. -/
def mwRequestID (req : Request) (freshUUID : String) : String :=
  let requestID := headerGet req.headers "X-Request-ID"
  if requestID = "" then freshUUID else requestID

/-- The response after the request-id step (lines 63-68): the middleware
writes the `X-Request-ID` response header only when the inbound header was
empty/absent. -/
def mwResp1 (req : Request) (resp0 : Response) (freshUUID : String) : Response :=
  if headerGet req.headers "X-Request-ID" = "" then
    { resp0 with headers := insertA resp0.headers "X-Request-ID" freshUUID }
  else resp0

/-- The enrichment record built at lines 71-75: `NewTraceData` defaults with
`RequestID`, `Action`, `Resource` and `Environment` overwritten. -/
def mwTraceData (config : Config) (req : Request) (freshUUID : String)
    (now : GoTime) : TraceData :=
  let traceData := NewTraceData now
  { traceData with
      RequestID := mwRequestID req freshUUID
      Action := req.method
      Resource := mwRoute req
      Environment := config.Environment }

/-- The span-start attributes (lines 78-92). -/
def mwStartAttrs (req : Request) (freshUUID : String) : List (String × AttrValue) :=
  [("http.method", .str req.method),
   ("http.target", .str req.urlPath),
   ("http.route", .str (mwRoute req)),
   ("http.host", .str req.host),
   ("http.scheme", .str req.scheme),
   ("http.flavor", .str req.proto),
   ("http.client_ip", .str req.clientIP),
   ("http.user_agent", .str req.userAgent),
   ("http.request_content_length", .int req.contentLength),
   ("http.request_id", .str (mwRequestID req freshUUID))]

/-- The span name (lines 94-97); the inner fallback is dead because
`mwRoute` never returns `""`, but it is kept from the source. -/
def mwSpanName (req : Request) : String :=
  let spanName := mwRoute req
  if spanName = "" then "HTTP " ++ req.method else spanName

/-- The request span right after `tracer.Start` plus the first
`AddTraceAttributes` call (lines 99-103). -/
def mwSpan1 (config : Config) (req : Request) (freshUUID : String)
    (now : GoTime) : SpanState :=
  let span0 : SpanState :=
    { name := mwSpanName req
      attrs := mwStartAttrs req freshUUID
      status := none
      recordedErrors := []
      ended := false }
  AddTraceAttributes span0 (mwTraceData config req freshUUID now)

/-- One run of the middleware's per-request function (lines 50-132).
`config0` is the configuration captured at middleware construction (the
empty service name is defaulted at lines 43-45); `freshUUID` stands for the
value of `uuid.New().String()`; `now` for `time.Now()` inside
`NewTraceData`.  The `defer span.End()` of line 100 is the trailing
`endSpan` of both branches. -/
def OtelMiddleware (config0 : Config) (freshUUID : String) (now : GoTime)
    (next : Response → Response × Option GoError)
    (req : Request) (resp0 : Response) : MwResult :=
  let config :=
    if config0.ServiceName = "" then { config0 with ServiceName := "default" }
    else config0
  let traceData := mwTraceData config req freshUUID now
  let resp1 := mwResp1 req resp0 freshUUID
  let span1 := mwSpan1 config req freshUUID now
  let r := next resp1
  let resp2 := r.1
  match r.2 with
  | some e =>
      let traceData := { traceData with Error := some e, StatusCode := resp2.status }
      let span2 := AddTraceAttributes span1 traceData
      let span3 := span2.recordError e
      { span := span3.endSpan, response := resp2, result := some e }
  | none =>
      let traceData := { traceData with StatusCode := resp2.status }
      let span2 := AddTraceAttributes span1 traceData
      let span3 := span2.setAttributes
        [("http.response_content_length", .int resp2.size),
         ("http.response_content_type", .str (headerGet resp2.headers "Content-Type"))]
      { span := span3.endSpan, response := resp2, result := none }

/-! ### The MongoDB collection wrapper (src/unnamed/part_002 lines 136-225)

The underlying driver call is external; each wrapper takes the driver's
result and error as input and is observed through the span it creates plus
the value/error pair it returns. -/

/-- The tracing wrapper around a MongoDB collection: the identifiers read by
`startSpan` (src/unnamed/part_002 lines 150-159). -/
structure Collection where
  dbName : String
  collName : String
  deriving DecidableEq, Repr

/-- `Collection.startSpan` (lines 150-159): a fresh span named
`"MongoDB.<operation>"` with the fixed database attributes. -/
def Collection.startSpan (c : Collection) (operation : String) : SpanState :=
  { name := "MongoDB." ++ operation
    attrs := [("db.system", .str "mongodb"),
              ("db.name", .str c.dbName),
              ("db.collection", .str c.collName),
              ("db.operation", .str operation)]
    status := none
    recordedErrors := []
    ended := false }

/-- `handleError` (lines 162-169): error present → status `Error` with the
error's message plus `RecordError`; no error → status `Ok` with message `""`. -/
def handleError (span : SpanState) (err : Option GoError) : SpanState :=
  match err with
  | some e => (span.setStatus .error e).recordError e
  | none => span.setStatus .ok ""

/-- `Collection.InsertOne` (lines 178-185); `underlying` is the result/error
pair of the wrapped `coll.InsertOne` driver call. -/
def Collection.InsertOne {α : Type} (c : Collection)
    (underlying : α × Option GoError) : SpanState × α × Option GoError :=
  let span := c.startSpan "InsertOne"
  let result := underlying.1
  let err := underlying.2
  let span := handleError span err
  (span.endSpan, result, err)

/-- `mongo.SingleResult`, observed through its `Err()` method. -/
structure SingleResult where
  errValue : Option GoError
  deriving DecidableEq, Repr

/-- `Collection.FindOne` (lines 188-195); `underlying` is the
`SingleResult` of the wrapped `coll.FindOne` driver call, whose `Err()` is
what `handleError` receives. -/
def Collection.FindOne (c : Collection) (underlying : SingleResult) :
    SpanState × SingleResult :=
  let span := c.startSpan "FindOne"
  let result := underlying
  let span := handleError span result.errValue
  (span.endSpan, result)

/-- `Collection.Find` (lines 198-205). -/
def Collection.Find {α : Type} (c : Collection)
    (underlying : α × Option GoError) : SpanState × α × Option GoError :=
  let span := c.startSpan "Find"
  let cursor := underlying.1
  let err := underlying.2
  let span := handleError span err
  (span.endSpan, cursor, err)

/-- `Collection.UpdateOne` (lines 208-215). -/
def Collection.UpdateOne {α : Type} (c : Collection)
    (underlying : α × Option GoError) : SpanState × α × Option GoError :=
  let span := c.startSpan "UpdateOne"
  let result := underlying.1
  let err := underlying.2
  let span := handleError span err
  (span.endSpan, result, err)

/-- `Collection.DeleteOne` (lines 218-225). -/
def Collection.DeleteOne {α : Type} (c : Collection)
    (underlying : α × Option GoError) : SpanState × α × Option GoError :=
  let span := c.startSpan "DeleteOne"
  let result := underlying.1
  let err := underlying.2
  let span := handleError span err
  (span.endSpan, result, err)

/-- Last binding of a key in a write list: the one that survives `setAll`. -/
def lookupLast {α : Type} : List (String × α) → String → Option α
  | [], _ => none
  | (k0, v) :: rest, k =>
      match lookupLast rest k with
      | some w => some w
      | none => if k0 = k then some v else none

/-! ### Association-list lemmas -/

theorem setAll_nil {α : Type} (l : List (String × α)) : setAll l [] = l := rfl

theorem setAll_cons {α : Type} (l : List (String × α)) (kv : String × α)
    (kvs : List (String × α)) :
    setAll l (kv :: kvs) = setAll (insertA l kv.1 kv.2) kvs := rfl

theorem lookupA_insertA_self {α : Type} (l : List (String × α)) (k : String) (v : α) :
    lookupA (insertA l k v) k = some v := by
  induction l with
  | nil => simp [insertA, lookupA]
  | cons hd tl ih =>
    obtain ⟨k0, v0⟩ := hd
    by_cases h : k0 = k
    · simp [insertA, h, lookupA]
    · simp [insertA, h, lookupA, ih]

theorem lookupA_insertA_ne {α : Type} (l : List (String × α)) {k k0 : String}
    (h : k0 ≠ k) (v : α) : lookupA (insertA l k0 v) k = lookupA l k := by
  induction l with
  | nil => simp [insertA, lookupA, h]
  | cons hd tl ih =>
    obtain ⟨k1, v1⟩ := hd
    by_cases h1 : k1 = k0
    · subst h1
      simp [insertA, lookupA, h]
    · simp [insertA, h1, lookupA, ih]

theorem insertA_eq_of_lookupA {α : Type} {l : List (String × α)} {k : String}
    {v : α} (h : lookupA l k = some v) : insertA l k v = l := by
  induction l with
  | nil => simp [lookupA] at h
  | cons hd tl ih =>
    obtain ⟨k0, v0⟩ := hd
    by_cases h0 : k0 = k
    · subst h0
      simp [lookupA] at h
      simp [insertA, h]
    · simp [lookupA, h0] at h
      simp [insertA, h0, ih h]

theorem lookupA_setAll_not_mem {α : Type} {kvs : List (String × α)} {k : String}
    (h : k ∉ kvs.map Prod.fst) (l : List (String × α)) :
    lookupA (setAll l kvs) k = lookupA l k := by
  induction kvs generalizing l with
  | nil => rfl
  | cons kv rest ih =>
    simp only [List.map_cons, List.mem_cons, not_or] at h
    rw [setAll_cons, ih h.2, lookupA_insertA_ne _ (Ne.symm h.1)]

theorem lookupA_setAll_mem {α : Type} {kvs : List (String × α)}
    (hnd : (kvs.map Prod.fst).Nodup) {k : String} {v : α} (h : (k, v) ∈ kvs)
    (l : List (String × α)) : lookupA (setAll l kvs) k = some v := by
  induction kvs generalizing l with
  | nil => simp at h
  | cons kv rest ih =>
    simp only [List.map_cons, List.nodup_cons] at hnd
    rcases List.mem_cons.mp h with h | h
    · subst h
      rw [setAll_cons, lookupA_setAll_not_mem hnd.1, lookupA_insertA_self]
    · rw [setAll_cons]
      exact ih hnd.2 h _

theorem setAll_eq_of_lookupA {α : Type} {kvs l : List (String × α)}
    (h : ∀ p ∈ kvs, lookupA l p.1 = some p.2) : setAll l kvs = l := by
  induction kvs with
  | nil => rfl
  | cons kv rest ih =>
    rw [setAll_cons, insertA_eq_of_lookupA (h kv (List.mem_cons_self _ _))]
    exact ih fun p hp => h p (List.mem_cons_of_mem _ hp)

theorem setAll_setAll_self {α : Type} {kvs : List (String × α)}
    (hnd : (kvs.map Prod.fst).Nodup) (l : List (String × α)) :
    setAll (setAll l kvs) kvs = setAll l kvs :=
  setAll_eq_of_lookupA fun p hp => by
    have := lookupA_setAll_mem hnd (v := p.2) (k := p.1) (by simpa using hp) l
    exact this

theorem lookupA_setAll_none {α : Type} {kvs l : List (String × α)} {k : String}
    (h : lookupA (setAll l kvs) k = none) : lookupA l k = none := by
  induction kvs generalizing l with
  | nil => exact h
  | cons kv rest ih =>
    rw [setAll_cons] at h
    have h1 := ih h
    by_cases hk : kv.1 = k
    · rw [hk, lookupA_insertA_self] at h1
      exact absurd h1 (by simp)
    · rwa [lookupA_insertA_ne _ hk] at h1

theorem lookupA_setAll {α : Type} (l kvs : List (String × α)) (k : String) :
    lookupA (setAll l kvs) k =
      match lookupLast kvs k with
      | some w => some w
      | none => lookupA l k := by
  induction kvs generalizing l with
  | nil => rfl
  | cons kv rest ih =>
    obtain ⟨k0, v0⟩ := kv
    rw [setAll_cons, ih]
    cases hrest : lookupLast rest k with
    | some w => simp [lookupLast, hrest]
    | none =>
      by_cases hk : k0 = k
      · subst hk
        simp [lookupLast, hrest, lookupA_insertA_self]
      · simp [lookupLast, hrest, hk, lookupA_insertA_ne _ hk]

/-! ### Structure lemmas for `AddTraceAttributes` -/

theorem AddTraceAttributes_attrs (s : SpanState) (d : TraceData) :
    (AddTraceAttributes s d).attrs = setAll s.attrs (buildAttributes d) := by
  unfold AddTraceAttributes
  split_ifs <;> try rfl
  cases d.Error <;> rfl

theorem AddTraceAttributes_name (s : SpanState) (d : TraceData) :
    (AddTraceAttributes s d).name = s.name := by
  unfold AddTraceAttributes
  split_ifs <;> try rfl
  cases d.Error <;> rfl

theorem AddTraceAttributes_recordedErrors (s : SpanState) (d : TraceData) :
    (AddTraceAttributes s d).recordedErrors = s.recordedErrors := by
  unfold AddTraceAttributes
  split_ifs <;> try rfl
  cases d.Error <;> rfl

theorem AddTraceAttributes_ended (s : SpanState) (d : TraceData) :
    (AddTraceAttributes s d).ended = s.ended := by
  unfold AddTraceAttributes
  split_ifs <;> try rfl
  cases d.Error <;> rfl

theorem buildAttributes_keys_nodup (d : TraceData) :
    ((buildAttributes d).map Prod.fst).Nodup := by
  unfold buildAttributes
  cases hE : d.Error <;> split_ifs <;> simp

/-- Helper: what `lookupA` finds on a span's attributes after one
`AddTraceAttributes` call, key by key. -/
theorem lookupA_addTraceAttributes (s : SpanState) (d : TraceData) :
    lookupA (AddTraceAttributes s d).attrs "user.id" = some (.str d.UserID) ∧
    lookupA (AddTraceAttributes s d).attrs "request.id" = some (.str d.RequestID) ∧
    lookupA (AddTraceAttributes s d).attrs "service.name" = some (.str d.ServiceName) ∧
    lookupA (AddTraceAttributes s d).attrs "environment" = some (.str d.Environment) ∧
    lookupA (AddTraceAttributes s d).attrs "version" = some (.str d.Version) ∧
    lookupA (AddTraceAttributes s d).attrs "region" = some (.str d.Region) ∧
    lookupA (AddTraceAttributes s d).attrs "action" = some (.str d.Action) ∧
    lookupA (AddTraceAttributes s d).attrs "resource" = some (.str d.Resource) ∧
    lookupA (AddTraceAttributes s d).attrs "status.code" = some (.int d.StatusCode) ∧
    lookupA (AddTraceAttributes s d).attrs "client.ip" = some (.str d.ClientIP) ∧
    lookupA (AddTraceAttributes s d).attrs "user.agent" = some (.str d.UserAgent) ∧
    lookupA (AddTraceAttributes s d).attrs "request.size" = some (.int d.RequestSize) ∧
    lookupA (AddTraceAttributes s d).attrs "response.size" = some (.int d.ResponseSize) ∧
    lookupA (AddTraceAttributes s d).attrs "duration.ms" = some (.int d.Duration) ∧
    (d.StartTime.isZero →
      lookupA (AddTraceAttributes s d).attrs "start_time" = lookupA s.attrs "start_time") ∧
    (¬ d.StartTime.isZero →
      lookupA (AddTraceAttributes s d).attrs "start_time" =
        some (.str (formatRFC3339 d.StartTime))) ∧
    (d.EndTime.isZero →
      lookupA (AddTraceAttributes s d).attrs "end_time" = lookupA s.attrs "end_time") ∧
    (¬ d.EndTime.isZero →
      lookupA (AddTraceAttributes s d).attrs "end_time" =
        some (.str (formatRFC3339 d.EndTime))) ∧
    (d.Error = none →
      lookupA (AddTraceAttributes s d).attrs "error.message" =
        lookupA s.attrs "error.message") ∧
    (∀ e, d.Error = some e →
      lookupA (AddTraceAttributes s d).attrs "error.message" = some (.str e)) := by
  rcases hE : d.Error with _ | e <;>
    by_cases h1 : d.StartTime.isZero <;>
    by_cases h2 : d.EndTime.isZero <;>
    simp [AddTraceAttributes_attrs, lookupA_setAll, buildAttributes, lookupLast, hE, h1, h2]

/-- Helper: the status written by one `AddTraceAttributes` call. -/
theorem AddTraceAttributes_status_eq (s : SpanState) (d : TraceData) :
    (AddTraceAttributes s d).status =
      if d.StatusCode = 0 then s.status
      else if d.StatusCode = 200 then some (.ok, "Success")
      else some (.error, d.Error.getD "Unknown error") := by
  unfold AddTraceAttributes SpanState.setAttributes SpanState.setStatus
  rcases hE : d.Error <;> split_ifs <;> simp_all

/-- Helper: two spans with equal observable components are equal. -/
theorem spanState_ext {a b : SpanState} (h1 : a.name = b.name)
    (h2 : a.attrs = b.attrs) (h3 : a.status = b.status)
    (h4 : a.recordedErrors = b.recordedErrors) (h5 : a.ended = b.ended) :
    a = b := by
  cases a; cases b; simp_all

/-- A span with no attributes, no status, nothing recorded, not ended. -/
def emptySpan : SpanState :=
  { name := "span", attrs := [], status := none, recordedErrors := [], ended := false }

/-- C1: for every enrichment record, `AddTraceAttributes` classifies the
span status from the record's status code: 200 → `Ok`/"Success"; non-zero
and not 200 → `Error` with the attached error's message, or "Unknown error"
when no error is attached; 0 → no status write at all, even when an error is
attached (the span keeps its previous status). -/
theorem AddTraceAttributes_status_classification (s : SpanState) (d : TraceData) :
    (d.StatusCode = 200 → (AddTraceAttributes s d).status = some (.ok, "Success")) ∧
    (d.StatusCode ≠ 0 → d.StatusCode ≠ 200 →
      (AddTraceAttributes s d).status = some (.error, d.Error.getD "Unknown error")) ∧
    (d.StatusCode = 0 → (AddTraceAttributes s d).status = s.status) := by
  rw [AddTraceAttributes_status_eq]
  refine ⟨fun h => ?_, fun h h2 => ?_, fun h => ?_⟩
  · simp [h]
  · simp [h, h2]
  · simp [h]

/-- C1 witness: the three classification branches at concrete records: a 200
record, a 500 record with an attached error, and a status-0 record with an
attached error (whose status stays unset). -/
theorem AddTraceAttributes_status_classification_witness :
    (AddTraceAttributes emptySpan { StatusCode := 200 }).status = some (.ok, "Success") ∧
    (AddTraceAttributes emptySpan { StatusCode := 500, Error := some "boom" }).status =
      some (.error, "boom") ∧
    (AddTraceAttributes emptySpan { StatusCode := 0, Error := some "boom" }).status = none := by
  refine ⟨(AddTraceAttributes_status_classification emptySpan _).1 rfl, ?_,
    (AddTraceAttributes_status_classification emptySpan _).2.2 rfl⟩
  have h := (AddTraceAttributes_status_classification emptySpan
    { StatusCode := 500, Error := some "boom" }).2.1 (by decide) (by decide)
  simpa using h

/-- C2 counterexample: the claim says a zero/empty field is never committed
as an attribute, but on the all-zero record the span ends up carrying the
empty-string attribute `user.id = ""`. -/
theorem AddTraceAttributes_commits_empty_attribute :
    ("user.id", AttrValue.str "") ∈ (AddTraceAttributes emptySpan {}).attrs := by
  decide

/-- C2 (amended): `AddTraceAttributes` commits the fourteen base attributes
unconditionally — zero and empty values included — and only `start_time`,
`end_time` and `error.message` are conditional (emitted exactly when the
timestamp is non-zero, resp. an error is attached). -/
theorem AddTraceAttributes_attribute_emission (s : SpanState) (d : TraceData) :
    lookupA (AddTraceAttributes s d).attrs "user.id" = some (.str d.UserID) ∧
    lookupA (AddTraceAttributes s d).attrs "request.id" = some (.str d.RequestID) ∧
    lookupA (AddTraceAttributes s d).attrs "service.name" = some (.str d.ServiceName) ∧
    lookupA (AddTraceAttributes s d).attrs "environment" = some (.str d.Environment) ∧
    lookupA (AddTraceAttributes s d).attrs "version" = some (.str d.Version) ∧
    lookupA (AddTraceAttributes s d).attrs "region" = some (.str d.Region) ∧
    lookupA (AddTraceAttributes s d).attrs "action" = some (.str d.Action) ∧
    lookupA (AddTraceAttributes s d).attrs "resource" = some (.str d.Resource) ∧
    lookupA (AddTraceAttributes s d).attrs "status.code" = some (.int d.StatusCode) ∧
    lookupA (AddTraceAttributes s d).attrs "client.ip" = some (.str d.ClientIP) ∧
    lookupA (AddTraceAttributes s d).attrs "user.agent" = some (.str d.UserAgent) ∧
    lookupA (AddTraceAttributes s d).attrs "request.size" = some (.int d.RequestSize) ∧
    lookupA (AddTraceAttributes s d).attrs "response.size" = some (.int d.ResponseSize) ∧
    lookupA (AddTraceAttributes s d).attrs "duration.ms" = some (.int d.Duration) ∧
    (d.StartTime.isZero →
      lookupA (AddTraceAttributes s d).attrs "start_time" = lookupA s.attrs "start_time") ∧
    (¬ d.StartTime.isZero →
      lookupA (AddTraceAttributes s d).attrs "start_time" =
        some (.str (formatRFC3339 d.StartTime))) ∧
    (d.EndTime.isZero →
      lookupA (AddTraceAttributes s d).attrs "end_time" = lookupA s.attrs "end_time") ∧
    (¬ d.EndTime.isZero →
      lookupA (AddTraceAttributes s d).attrs "end_time" =
        some (.str (formatRFC3339 d.EndTime))) ∧
    (d.Error = none →
      lookupA (AddTraceAttributes s d).attrs "error.message" =
        lookupA s.attrs "error.message") ∧
    (∀ e, d.Error = some e →
      lookupA (AddTraceAttributes s d).attrs "error.message" = some (.str e)) :=
  lookupA_addTraceAttributes s d

/-- C2 witness: on the all-zero record the base attribute `user.id` is
committed with the empty string, while `start_time` stays absent. -/
theorem AddTraceAttributes_attribute_emission_witness :
    lookupA (AddTraceAttributes emptySpan {}).attrs "user.id" = some (.str "") ∧
    lookupA (AddTraceAttributes emptySpan {}).attrs "start_time" = none := by
  obtain ⟨h1, -, -, -, -, -, -, -, -, -, -, -, -, -, h15, -, -, -, -, -⟩ :=
    AddTraceAttributes_attribute_emission emptySpan {}
  exact ⟨h1, (h15 rfl).trans rfl⟩

/-- C7: `AddTraceAttributes` is deterministic (it is a function) and
idempotent — a second call with the unchanged record leaves the span state,
attributes and status included, exactly as after the first call — and any
call only adds or overrides attributes: a key absent afterwards was already
absent before. -/
theorem AddTraceAttributes_idempotent_additive (s : SpanState) (d d2 : TraceData) :
    AddTraceAttributes (AddTraceAttributes s d) d = AddTraceAttributes s d ∧
    (∀ k, lookupA (AddTraceAttributes s d2).attrs k = none → lookupA s.attrs k = none) := by
  constructor
  · refine spanState_ext ?_ ?_ ?_ ?_ ?_
    · rw [AddTraceAttributes_name, AddTraceAttributes_name]
    · rw [AddTraceAttributes_attrs, AddTraceAttributes_attrs]
      exact setAll_setAll_self (buildAttributes_keys_nodup d) s.attrs
    · rw [AddTraceAttributes_status_eq, AddTraceAttributes_status_eq]
      split_ifs <;> rfl
    · rw [AddTraceAttributes_recordedErrors, AddTraceAttributes_recordedErrors]
    · rw [AddTraceAttributes_ended, AddTraceAttributes_ended]
  · intro k h
    rw [AddTraceAttributes_attrs] at h
    exact lookupA_setAll_none h

/-- C7 witness: idempotence at a concrete span and record, and the
additivity conclusion at a key that was never set. -/
theorem AddTraceAttributes_idempotent_additive_witness :
    AddTraceAttributes (AddTraceAttributes emptySpan { StatusCode := 200 }) { StatusCode := 200 } =
      AddTraceAttributes emptySpan { StatusCode := 200 } ∧
    lookupA emptySpan.attrs "zzz" = none :=
  ⟨(AddTraceAttributes_idempotent_additive emptySpan { StatusCode := 200 }
      { StatusCode := 200 }).1,
   (AddTraceAttributes_idempotent_additive emptySpan { StatusCode := 200 }
      { StatusCode := 200 }).2 "zzz" (by decide)⟩

/-- C3: `StartSpan` (runInSpan) starts exactly one child span named by the
operation — the ledger handed to the work is the caller's ledger with that
one span appended — ends exactly that span after the work on every exit
path, panics included (the deferred `End` event is appended whatever the
outcome is), writes no status of its own, and returns the work's outcome —
in particular its error value — unchanged. -/
theorem StartSpan_lifecycle (tracerCtx : TraceContext) (operation : String)
    (fn : Nat → SpanLog → SpanLog × Outcome) (log log2 : SpanLog) (out : Outcome)
    (h : fn log.started.length { log with started := log.started ++ [operation] } =
      (log2, out)) :
    StartSpan tracerCtx operation fn log =
      ({ log2 with ended := log2.ended ++ [log.started.length] }, out) ∧
    (StartSpan tracerCtx operation fn log).2 = out ∧
    (StartSpan tracerCtx operation fn log).1.started = log2.started ∧
    (StartSpan tracerCtx operation fn log).1.statusSet = log2.statusSet := by
  simp only [StartSpan]
  rw [h]
  exact ⟨rfl, rfl, rfl, rfl⟩

/-- C3 witness: a panicking unit of work on the empty ledger still gets its
span ended, and its outcome is propagated unchanged. -/
theorem StartSpan_lifecycle_witness :
    StartSpan ⟨"tracer"⟩ "op" (fun _ l => (l, .panicked "p")) ⟨[], [], []⟩ =
      (⟨["op"], [0], []⟩, .panicked "p") :=
  (StartSpan_lifecycle ⟨"tracer"⟩ "op" (fun _ l => (l, .panicked "p"))
    ⟨[], [], []⟩ ⟨["op"], [], []⟩ (.panicked "p") rfl).1

/-- C9: both provider initializers fall back to the endpoint
"127.0.0.1:5081" when the config endpoint is empty and to the stream name
"default" when the config stream name is empty, and use non-empty config
values verbatim. -/
theorem InitTracer_defaults (config : Config) :
    (config.Endpoint = "" → (InitTracerHTTP config).endpoint = "127.0.0.1:5081" ∧
      (InitTracerGRPC config).endpoint = "127.0.0.1:5081") ∧
    (config.Endpoint ≠ "" → (InitTracerHTTP config).endpoint = config.Endpoint ∧
      (InitTracerGRPC config).endpoint = config.Endpoint) ∧
    (config.StreamName = "" → (InitTracerHTTP config).streamName = "default" ∧
      (InitTracerGRPC config).streamName = "default") ∧
    (config.StreamName ≠ "" → (InitTracerHTTP config).streamName = config.StreamName ∧
      (InitTracerGRPC config).streamName = config.StreamName) := by
  refine ⟨fun h => ?_, fun h => ?_, fun h => ?_, fun h => ?_⟩ <;>
    simp [InitTracerHTTP, InitTracerGRPC, h]

/-- Helper: the middleware run when the handler returns an error. -/
theorem OtelMiddleware_error_case (config0 : Config) (freshUUID : String)
    (now : GoTime) (next : Response → Response × Option GoError) (req : Request)
    (resp0 resp2 : Response) (e : GoError)
    (h : next (mwResp1 req resp0 freshUUID) = (resp2, some e)) :
    OtelMiddleware config0 freshUUID now next req resp0 =
      { span := ((AddTraceAttributes (mwSpan1 config0 req freshUUID now)
            { mwTraceData config0 req freshUUID now with
                Error := some e, StatusCode := resp2.status }).recordError e).endSpan
        response := resp2
        result := some e } := by
  simp only [OtelMiddleware]
  rw [h]
  split_ifs <;> rfl

/-- Helper: the middleware run when the handler returns no error. -/
theorem OtelMiddleware_success_case (config0 : Config) (freshUUID : String)
    (now : GoTime) (next : Response → Response × Option GoError) (req : Request)
    (resp0 resp2 : Response)
    (h : next (mwResp1 req resp0 freshUUID) = (resp2, none)) :
    OtelMiddleware config0 freshUUID now next req resp0 =
      { span := ((AddTraceAttributes (mwSpan1 config0 req freshUUID now)
            { mwTraceData config0 req freshUUID now with
                StatusCode := resp2.status }).setAttributes
            [("http.response_content_length", .int resp2.size),
             ("http.response_content_type", .str (headerGet resp2.headers "Content-Type"))]).endSpan
        response := resp2
        result := none } := by
  simp only [OtelMiddleware]
  rw [h]
  split_ifs <;> rfl

/-- Helper: a request span never starts with the response attributes. -/
theorem lookupA_mwStartAttrs_response (req : Request) (freshUUID : String) :
    lookupA (mwStartAttrs req freshUUID) "http.response_content_length" = none ∧
    lookupA (mwStartAttrs req freshUUID) "http.response_content_type" = none := by
  simp [mwStartAttrs, lookupA]

/-- Helper: the enrichment record never emits the response attributes. -/
theorem respKeys_not_mem_buildAttributes (d : TraceData) :
    "http.response_content_length" ∉ (buildAttributes d).map Prod.fst ∧
    "http.response_content_type" ∉ (buildAttributes d).map Prod.fst := by
  unfold buildAttributes
  cases d.Error <;> split_ifs <;> simp

/-- Helper: attributes of the span right after the first enrichment. -/
theorem mwSpan1_attrs (config : Config) (req : Request) (freshUUID : String)
    (now : GoTime) :
    (mwSpan1 config req freshUUID now).attrs =
      setAll (mwStartAttrs req freshUUID)
        (buildAttributes (mwTraceData config req freshUUID now)) := by
  unfold mwSpan1
  rw [AddTraceAttributes_attrs]

/-- Helper: nothing is recorded on the span before the handler runs. -/
theorem mwSpan1_recordedErrors (config : Config) (req : Request)
    (freshUUID : String) (now : GoTime) :
    (mwSpan1 config req freshUUID now).recordedErrors = [] := by
  unfold mwSpan1
  rw [AddTraceAttributes_recordedErrors]

/-- A sample matched GET request carrying the header `X-Request-ID: abc-123`. -/
def sampleReqWithID : Request :=
  { method := "GET", path := "/users", urlPath := "/users", host := "example.com"
    scheme := "http", proto := "HTTP/1.1", headers := [("X-Request-ID", "abc-123")]
    contentLength := 0, clientIP := "127.0.0.1", userAgent := "test-agent" }

/-- The same request without any headers. -/
def sampleReqNoID : Request :=
  { method := "GET", path := "/users", urlPath := "/users", host := "example.com"
    scheme := "http", proto := "HTTP/1.1", headers := []
    contentLength := 0, clientIP := "127.0.0.1", userAgent := "test-agent" }

/-- A fresh response state. -/
def sampleResp : Response := { status := 200, size := 0, headers := [] }

/-- C4 counterexample: the claim says a request supplying
`X-Request-ID: abc-123` gets a response carrying that same header, but the
middleware only writes the response header when it generated the id itself;
with an identity handler the final response carries no `X-Request-ID` at
all. -/
theorem OtelMiddleware_no_echo_of_supplied_requestID :
    lookupA (OtelMiddleware {} "generated-uuid" 1 (fun r => (r, none))
      sampleReqWithID sampleResp).response.headers "X-Request-ID" = none := by
  rfl

/-- C4 (amended): a non-empty inbound `X-Request-ID` header is used verbatim
as the request id (it reaches the span's `request.id` attribute) but the
middleware does not write it back to the response; when the header is
empty/absent, the freshly generated identifier becomes the request id and is
set in the response's `X-Request-ID` header before the handler runs. -/
theorem OtelMiddleware_requestID (config0 : Config) (freshUUID : String)
    (now : GoTime) (next : Response → Response × Option GoError) (req : Request)
    (resp0 : Response) :
    (headerGet req.headers "X-Request-ID" ≠ "" →
      mwRequestID req freshUUID = headerGet req.headers "X-Request-ID" ∧
      mwResp1 req resp0 freshUUID = resp0) ∧
    (headerGet req.headers "X-Request-ID" = "" →
      mwRequestID req freshUUID = freshUUID ∧
      headerGet (mwResp1 req resp0 freshUUID).headers "X-Request-ID" = freshUUID) ∧
    lookupA (OtelMiddleware config0 freshUUID now next req resp0).span.attrs "request.id" =
      some (.str (mwRequestID req freshUUID)) := by
  refine ⟨fun h => ?_, fun h => ?_, ?_⟩
  · simp [mwRequestID, mwResp1, h]
  · simp only [headerGet] at h
    simp [mwRequestID, mwResp1, headerGet, h, lookupA_insertA_self]
  · rcases hn : next (mwResp1 req resp0 freshUUID) with ⟨resp2, err⟩
    cases err with
    | some e =>
      rw [OtelMiddleware_error_case config0 freshUUID now next req resp0 resp2 e hn]
      have hm := (lookupA_addTraceAttributes (mwSpan1 config0 req freshUUID now)
        { mwTraceData config0 req freshUUID now with
            Error := some e, StatusCode := resp2.status }).2.1
      simpa [SpanState.recordError, SpanState.endSpan] using hm
    | none =>
      rw [OtelMiddleware_success_case config0 freshUUID now next req resp0 resp2 hn]
      have hm := (lookupA_addTraceAttributes (mwSpan1 config0 req freshUUID now)
        { mwTraceData config0 req freshUUID now with StatusCode := resp2.status }).2.1
      have hnm : "request.id" ∉
          (([("http.response_content_length", AttrValue.int resp2.size),
             ("http.response_content_type",
               AttrValue.str (headerGet resp2.headers "Content-Type"))] :
            List (String × AttrValue))).map Prod.fst := by simp
      simp only [SpanState.setAttributes, SpanState.endSpan]
      rw [lookupA_setAll_not_mem hnm]
      simpa using hm

/-- C4 witness: both branches at concrete requests — the supplied id
`abc-123` is used but not echoed; the generated id is used and written to
the response header — plus the span attribute carrying the id. -/
theorem OtelMiddleware_requestID_witness :
    mwRequestID sampleReqWithID "generated-uuid" = "abc-123" ∧
    mwResp1 sampleReqWithID sampleResp "generated-uuid" = sampleResp ∧
    mwRequestID sampleReqNoID "generated-uuid" = "generated-uuid" ∧
    headerGet (mwResp1 sampleReqNoID sampleResp "generated-uuid").headers "X-Request-ID" =
      "generated-uuid" ∧
    lookupA (OtelMiddleware {} "generated-uuid" 1 (fun r => (r, none))
      sampleReqNoID sampleResp).span.attrs "request.id" =
      some (.str "generated-uuid") := by
  obtain ⟨hA, -, -⟩ := OtelMiddleware_requestID {} "generated-uuid" 1
    (fun r => (r, none)) sampleReqWithID sampleResp
  obtain ⟨-, hB, hC⟩ := OtelMiddleware_requestID {} "generated-uuid" 1
    (fun r => (r, none)) sampleReqNoID sampleResp
  have h1 := hA (by decide)
  have h2 := hB rfl
  exact ⟨h1.1, h1.2, h2.1, h2.2, hC⟩

/-- C5: when the handler errors, the middleware records the error on the
request span (`RecordError` plus the `error.message` attribute) and returns
the identical error value to the framework; when the handler returns `nil`,
the middleware returns `nil`. -/
theorem OtelMiddleware_error_passthrough (config0 : Config) (freshUUID : String)
    (now : GoTime) (next : Response → Response × Option GoError) (req : Request)
    (resp0 resp2 : Response) (err : Option GoError)
    (h : next (mwResp1 req resp0 freshUUID) = (resp2, err)) :
    (OtelMiddleware config0 freshUUID now next req resp0).result = err ∧
    (∀ e, err = some e →
      (OtelMiddleware config0 freshUUID now next req resp0).span.recordedErrors = [e] ∧
      lookupA (OtelMiddleware config0 freshUUID now next req resp0).span.attrs
        "error.message" = some (.str e)) := by
  cases err with
  | none =>
    rw [OtelMiddleware_success_case config0 freshUUID now next req resp0 resp2 h]
    exact ⟨rfl, by simp⟩
  | some e =>
    rw [OtelMiddleware_error_case config0 freshUUID now next req resp0 resp2 e h]
    refine ⟨rfl, fun e2 he2 => ?_⟩
    have he' : e = e2 := by simpa using he2
    subst he'
    constructor
    · simp [SpanState.recordError, SpanState.endSpan,
        AddTraceAttributes_recordedErrors, mwSpan1_recordedErrors]
    · have hm := (lookupA_addTraceAttributes (mwSpan1 config0 req freshUUID now)
        { mwTraceData config0 req freshUUID now with
            Error := some e, StatusCode := resp2.status })
      have hmsg := hm.2.2.2.2.2.2.2.2.2.2.2.2.2.2.2.2.2.2.2 e rfl
      simpa [SpanState.recordError, SpanState.endSpan] using hmsg

/-- C5 witness: a handler failing with "boom" at a concrete request — the
error is returned unchanged, recorded once on the span, and carried in the
`error.message` attribute; a succeeding handler yields `none`. -/
theorem OtelMiddleware_error_passthrough_witness :
    (OtelMiddleware {} "uuid-1" 1
      (fun r => ({ r with status := 500 }, some "boom"))
      sampleReqNoID sampleResp).result = some "boom" ∧
    (OtelMiddleware {} "uuid-1" 1
      (fun r => ({ r with status := 500 }, some "boom"))
      sampleReqNoID sampleResp).span.recordedErrors = ["boom"] ∧
    lookupA (OtelMiddleware {} "uuid-1" 1
      (fun r => ({ r with status := 500 }, some "boom"))
      sampleReqNoID sampleResp).span.attrs "error.message" = some (.str "boom") ∧
    (OtelMiddleware {} "uuid-1" 1 (fun r => (r, none))
      sampleReqNoID sampleResp).result = none := by
  obtain ⟨h1, h2⟩ := OtelMiddleware_error_passthrough {} "uuid-1" 1
    (fun r => ({ r with status := 500 }, some "boom")) sampleReqNoID sampleResp
    _ (some "boom") rfl
  obtain ⟨h3, -⟩ := OtelMiddleware_error_passthrough {} "uuid-1" 1
    (fun r => (r, none)) sampleReqNoID sampleResp _ none rfl
  have h4 := h2 "boom" rfl
  exact ⟨h1, h4.1, h4.2, h3⟩

/-- Helper: what `handleError` followed by the deferred `End` leaves on a
span, in the error and the no-error case. -/
theorem handleError_spec (span : SpanState) (err : Option GoError) :
    ((handleError span err).endSpan).name = span.name ∧
    ((handleError span err).endSpan).ended = true ∧
    (∀ e, err = some e → (handleError span err).status = some (.error, e) ∧
      (handleError span err).recordedErrors = span.recordedErrors ++ [e]) ∧
    (err = none → (handleError span err).status = some (.ok, "") ∧
      (handleError span err).recordedErrors = span.recordedErrors) := by
  cases err <;>
    simp [handleError, SpanState.setStatus, SpanState.recordError, SpanState.endSpan]

/-- C6: each exposed data operation (`InsertOne`, `FindOne`, `Find`,
`UpdateOne`, `DeleteOne`) produces exactly one span named
`"MongoDB.<Operation>"` which is ended before the wrapper returns; an
underlying error yields span status `Error` with that error recorded, no
error yields status `Ok` with nothing recorded; and the underlying result
and error are returned to the caller unchanged. -/
theorem Collection_operation_tracing {α β γ δ : Type} (c : Collection)
    (u1 : α × Option GoError) (sr : SingleResult) (u2 : β × Option GoError)
    (u3 : γ × Option GoError) (u4 : δ × Option GoError) :
    ((c.InsertOne u1).1.name = "MongoDB.InsertOne" ∧
     (c.InsertOne u1).1.ended = true ∧
     (c.InsertOne u1).2 = u1 ∧
     (∀ e, u1.2 = some e → (c.InsertOne u1).1.status = some (.error, e) ∧
       (c.InsertOne u1).1.recordedErrors = [e]) ∧
     (u1.2 = none → (c.InsertOne u1).1.status = some (.ok, "") ∧
       (c.InsertOne u1).1.recordedErrors = [])) ∧
    ((c.FindOne sr).1.name = "MongoDB.FindOne" ∧
     (c.FindOne sr).1.ended = true ∧
     (c.FindOne sr).2 = sr ∧
     (∀ e, sr.errValue = some e → (c.FindOne sr).1.status = some (.error, e) ∧
       (c.FindOne sr).1.recordedErrors = [e]) ∧
     (sr.errValue = none → (c.FindOne sr).1.status = some (.ok, "") ∧
       (c.FindOne sr).1.recordedErrors = [])) ∧
    ((c.Find u2).1.name = "MongoDB.Find" ∧
     (c.Find u2).1.ended = true ∧
     (c.Find u2).2 = u2 ∧
     (∀ e, u2.2 = some e → (c.Find u2).1.status = some (.error, e) ∧
       (c.Find u2).1.recordedErrors = [e]) ∧
     (u2.2 = none → (c.Find u2).1.status = some (.ok, "") ∧
       (c.Find u2).1.recordedErrors = [])) ∧
    ((c.UpdateOne u3).1.name = "MongoDB.UpdateOne" ∧
     (c.UpdateOne u3).1.ended = true ∧
     (c.UpdateOne u3).2 = u3 ∧
     (∀ e, u3.2 = some e → (c.UpdateOne u3).1.status = some (.error, e) ∧
       (c.UpdateOne u3).1.recordedErrors = [e]) ∧
     (u3.2 = none → (c.UpdateOne u3).1.status = some (.ok, "") ∧
       (c.UpdateOne u3).1.recordedErrors = [])) ∧
    ((c.DeleteOne u4).1.name = "MongoDB.DeleteOne" ∧
     (c.DeleteOne u4).1.ended = true ∧
     (c.DeleteOne u4).2 = u4 ∧
     (∀ e, u4.2 = some e → (c.DeleteOne u4).1.status = some (.error, e) ∧
       (c.DeleteOne u4).1.recordedErrors = [e]) ∧
     (u4.2 = none → (c.DeleteOne u4).1.status = some (.ok, "") ∧
       (c.DeleteOne u4).1.recordedErrors = [])) := by
  have h1 := handleError_spec (c.startSpan "InsertOne") u1.2
  have h2 := handleError_spec (c.startSpan "FindOne") sr.errValue
  have h3 := handleError_spec (c.startSpan "Find") u2.2
  have h4 := handleError_spec (c.startSpan "UpdateOne") u3.2
  have h5 := handleError_spec (c.startSpan "DeleteOne") u4.2
  exact ⟨⟨h1.1, h1.2.1, rfl, fun e he => h1.2.2.1 e he, fun hn => h1.2.2.2 hn⟩,
    ⟨h2.1, h2.2.1, rfl, fun e he => h2.2.2.1 e he, fun hn => h2.2.2.2 hn⟩,
    ⟨h3.1, h3.2.1, rfl, fun e he => h3.2.2.1 e he, fun hn => h3.2.2.2 hn⟩,
    ⟨h4.1, h4.2.1, rfl, fun e he => h4.2.2.1 e he, fun hn => h4.2.2.2 hn⟩,
    ⟨h5.1, h5.2.1, rfl, fun e he => h5.2.2.1 e he, fun hn => h5.2.2.2 hn⟩⟩

/-- C6 witness: a simulated store failure on `InsertOne` yields an Error
span with the failure recorded; a simulated success yields an Ok span with
nothing recorded, ended before return. -/
theorem Collection_operation_tracing_witness :
    (Collection.InsertOne ⟨"testdb", "users"⟩
      (((), some "boom") : Unit × Option GoError)).1.status = some (.error, "boom") ∧
    (Collection.InsertOne ⟨"testdb", "users"⟩
      (((), some "boom") : Unit × Option GoError)).1.recordedErrors = ["boom"] ∧
    (Collection.InsertOne ⟨"testdb", "users"⟩
      (((), none) : Unit × Option GoError)).1.status = some (.ok, "") ∧
    (Collection.InsertOne ⟨"testdb", "users"⟩
      (((), none) : Unit × Option GoError)).1.recordedErrors = [] ∧
    (Collection.InsertOne ⟨"testdb", "users"⟩
      (((), none) : Unit × Option GoError)).1.ended = true := by
  obtain ⟨hF, -, -, -, -⟩ := Collection_operation_tracing ⟨"testdb", "users"⟩
    (((), some "boom") : Unit × Option GoError) ⟨none⟩
    (((), none) : Unit × Option GoError) (((), none) : Unit × Option GoError)
    (((), none) : Unit × Option GoError)
  obtain ⟨hS, -, -, -, -⟩ := Collection_operation_tracing ⟨"testdb", "users"⟩
    (((), none) : Unit × Option GoError) ⟨none⟩
    (((), none) : Unit × Option GoError) (((), none) : Unit × Option GoError)
    (((), none) : Unit × Option GoError)
  have hf := hF.2.2.2.1 "boom" rfl
  have hs := hS.2.2.2.2 rfl
  exact ⟨hf.1, hf.2, hs.1, hs.2, hS.2.1⟩

/-- C8 counterexample: the claim says the finalize step sets the
response-content-length and response-content-type attributes whether the
handler errored or not, but the error branch returns before those
attributes are set: with a failing handler that did set a content type, the
final span carries neither attribute. -/
theorem OtelMiddleware_error_branch_skips_response_attrs :
    lookupA (OtelMiddleware {} "uuid-1" 1
      (fun r =>
        ({ r with
            status := 500
            headers := insertA r.headers "Content-Type" "application/json" },
          some "boom"))
      sampleReqNoID sampleResp).span.attrs "http.response_content_length" = none := by
  rfl

/-- C8 (amended): after the handler returns, the middleware updates the
record with the final response status (and the error, if any), re-applies
the enrichment, and closes the span in both branches; the
response-content-length and response-content-type attributes, however, are
set only when the handler returned no error — the error branch returns
before setting them. -/
theorem OtelMiddleware_finalize (config0 : Config) (freshUUID : String)
    (now : GoTime) (next : Response → Response × Option GoError) (req : Request)
    (resp0 resp2 : Response) (err : Option GoError)
    (h : next (mwResp1 req resp0 freshUUID) = (resp2, err)) :
    (OtelMiddleware config0 freshUUID now next req resp0).span.ended = true ∧
    lookupA (OtelMiddleware config0 freshUUID now next req resp0).span.attrs
      "status.code" = some (.int resp2.status) ∧
    (err = none →
      lookupA (OtelMiddleware config0 freshUUID now next req resp0).span.attrs
        "http.response_content_length" = some (.int resp2.size) ∧
      lookupA (OtelMiddleware config0 freshUUID now next req resp0).span.attrs
        "http.response_content_type" =
          some (.str (headerGet resp2.headers "Content-Type"))) ∧
    (∀ e, err = some e →
      lookupA (OtelMiddleware config0 freshUUID now next req resp0).span.attrs
        "error.message" = some (.str e) ∧
      lookupA (OtelMiddleware config0 freshUUID now next req resp0).span.attrs
        "http.response_content_length" = none ∧
      lookupA (OtelMiddleware config0 freshUUID now next req resp0).span.attrs
        "http.response_content_type" = none) := by
  cases err with
  | none =>
    rw [OtelMiddleware_success_case config0 freshUUID now next req resp0 resp2 h]
    obtain ⟨-, -, -, -, -, -, -, -, hsc, -, -, -, -, -, -, -, -, -, -, -⟩ :=
      lookupA_addTraceAttributes (mwSpan1 config0 req freshUUID now)
        { mwTraceData config0 req freshUUID now with StatusCode := resp2.status }
    refine ⟨rfl, ?_, fun _ => ⟨?_, ?_⟩, by simp⟩
    · simp only [SpanState.setAttributes, SpanState.endSpan]
      rw [lookupA_setAll]
      simpa [lookupLast] using hsc
    · simp only [SpanState.setAttributes, SpanState.endSpan]
      rw [lookupA_setAll]
      simp [lookupLast]
    · simp only [SpanState.setAttributes, SpanState.endSpan]
      rw [lookupA_setAll]
      simp [lookupLast]
  | some e =>
    rw [OtelMiddleware_error_case config0 freshUUID now next req resp0 resp2 e h]
    obtain ⟨-, -, -, -, -, -, -, -, hsc, -, -, -, -, -, -, -, -, -, -, hmsg⟩ :=
      lookupA_addTraceAttributes (mwSpan1 config0 req freshUUID now)
        { mwTraceData config0 req freshUUID now with
            Error := some e, StatusCode := resp2.status }
    refine ⟨rfl, ?_, by simp, fun e2 he2 => ?_⟩
    · simpa [SpanState.recordError, SpanState.endSpan] using hsc
    · have he' : e = e2 := by simpa using he2
      subst he'
      refine ⟨by simpa [SpanState.recordError, SpanState.endSpan] using hmsg e rfl,
        ?_, ?_⟩
      · simp only [SpanState.recordError, SpanState.endSpan]
        rw [AddTraceAttributes_attrs,
          lookupA_setAll_not_mem (respKeys_not_mem_buildAttributes _).1,
          mwSpan1_attrs,
          lookupA_setAll_not_mem (respKeys_not_mem_buildAttributes _).1]
        exact (lookupA_mwStartAttrs_response req freshUUID).1
      · simp only [SpanState.recordError, SpanState.endSpan]
        rw [AddTraceAttributes_attrs,
          lookupA_setAll_not_mem (respKeys_not_mem_buildAttributes _).2,
          mwSpan1_attrs,
          lookupA_setAll_not_mem (respKeys_not_mem_buildAttributes _).2]
        exact (lookupA_mwStartAttrs_response req freshUUID).2

/-- A sample succeeding handler that sets status 201, a 5-byte body and a
content type. -/
def sampleNext : Response → Response × Option GoError :=
  fun r =>
    ({ r with
        status := 201
        size := 5
        headers := insertA r.headers "Content-Type" "text/html" }, none)

/-- C8 witness: the success branch at a concrete request — the span is
closed with the final status code and both response attributes. -/
theorem OtelMiddleware_finalize_witness :
    (OtelMiddleware {} "uuid-1" 1 sampleNext sampleReqNoID sampleResp).span.ended = true ∧
    lookupA (OtelMiddleware {} "uuid-1" 1 sampleNext sampleReqNoID
      sampleResp).span.attrs "status.code" = some (.int 201) ∧
    lookupA (OtelMiddleware {} "uuid-1" 1 sampleNext sampleReqNoID
      sampleResp).span.attrs "http.response_content_length" = some (.int 5) ∧
    lookupA (OtelMiddleware {} "uuid-1" 1 sampleNext sampleReqNoID
      sampleResp).span.attrs "http.response_content_type" =
        some (.str "text/html") := by
  obtain ⟨h1, h2, h3, -⟩ := OtelMiddleware_finalize {} "uuid-1" 1 sampleNext
    sampleReqNoID sampleResp
    { status := 201, size := 5,
      headers := [("X-Request-ID", "uuid-1"), ("Content-Type", "text/html")] }
    none (by decide)
  exact ⟨h1, h2, (h3 rfl).1, (h3 rfl).2⟩

/-- C10 (implicit): `NewTraceData` pre-fills the environment with the
default "development", but the middleware unconditionally overwrites it with
the config's environment, so the span's `environment` attribute always
equals the config value — the empty string included — and the default never
reaches a request span. -/
theorem OtelMiddleware_environment_override (config0 : Config) (freshUUID : String)
    (now : GoTime) (next : Response → Response × Option GoError) (req : Request)
    (resp0 : Response) :
    (NewTraceData now).Environment = "development" ∧
    lookupA (OtelMiddleware config0 freshUUID now next req resp0).span.attrs
      "environment" = some (.str config0.Environment) := by
  refine ⟨rfl, ?_⟩
  rcases hn : next (mwResp1 req resp0 freshUUID) with ⟨resp2, err⟩
  cases err with
  | some e =>
    rw [OtelMiddleware_error_case config0 freshUUID now next req resp0 resp2 e hn]
    have hm := (lookupA_addTraceAttributes (mwSpan1 config0 req freshUUID now)
      { mwTraceData config0 req freshUUID now with
          Error := some e, StatusCode := resp2.status }).2.2.2.1
    simpa [SpanState.recordError, SpanState.endSpan] using hm
  | none =>
    rw [OtelMiddleware_success_case config0 freshUUID now next req resp0 resp2 hn]
    have hm := (lookupA_addTraceAttributes (mwSpan1 config0 req freshUUID now)
      { mwTraceData config0 req freshUUID now with StatusCode := resp2.status }).2.2.2.1
    have hnm : "environment" ∉
        (([("http.response_content_length", AttrValue.int resp2.size),
           ("http.response_content_type",
             AttrValue.str (headerGet resp2.headers "Content-Type"))] :
          List (String × AttrValue))).map Prod.fst := by simp
    simp only [SpanState.setAttributes, SpanState.endSpan]
    rw [lookupA_setAll_not_mem hnm]
    simpa using hm

/-- C9 witness: the defaults on the empty config, and verbatim use of a
non-empty endpoint and stream name. -/
theorem InitTracer_defaults_witness :
    (InitTracerHTTP {}).endpoint = "127.0.0.1:5081" ∧
    (InitTracerGRPC {}).streamName = "default" ∧
    (InitTracerHTTP { Endpoint := "collector:4318", StreamName := "s1" }).endpoint =
      "collector:4318" ∧
    (InitTracerGRPC { Endpoint := "collector:4318", StreamName := "s1" }).streamName =
      "s1" :=
  ⟨((InitTracer_defaults {}).1 rfl).1,
   ((InitTracer_defaults {}).2.2.1 rfl).2,
   ((InitTracer_defaults { Endpoint := "collector:4318", StreamName := "s1" }).2.1
      (by decide)).1,
   ((InitTracer_defaults { Endpoint := "collector:4318", StreamName := "s1" }).2.2.2
      (by decide)).2⟩
